import Mathlib

/-!
Verification development for the chatops message-routing and session-binding
engine (`ChatOpsManager` and its helpers).

The engine's own code is translated directly into executable Lean definitions.
External collaborators (platform adapters, persistence models, the agent
executor) appear as explicit parameters of an `Env` record; calls whose
observable behaviour matters are additionally recorded in an `Effect` trace so
that theorems can speak about which side effects a code path performs.
JavaScript string truthiness (`""` is falsy) is modelled by `strOpt`.
-/

namespace ChatOps

/-- JavaScript whitespace class `\s` restricted to the ASCII range (the source
only ever feeds ASCII agent names and chat text through these helpers). -/
def isJsSpace (c : Char) : Bool :=
  c = ' ' || c = '\t' || c = '\n' || c = '\r' || c = '\x0b' || c = '\x0c'

/-- Characters matched by the JavaScript regex `.` (no `s` flag): everything
except line terminators. -/
def isDotChar (c : Char) : Bool :=
  c ≠ '\n' && c ≠ '\r' && c ≠ Char.ofNat 0x2028 && c ≠ Char.ofNat 0x2029

/-- JavaScript `String.prototype.trim` on a character list. -/
def jsTrimChars (l : List Char) : List Char :=
  ((l.dropWhile isJsSpace).reverse.dropWhile isJsSpace).reverse

/-- Index of the first occurrence of a character (JavaScript `indexOf`). -/
def indexOfChar : List Char → Char → Option Nat
  | [], _ => none
  | c :: rest, t => if c = t then some 0 else (indexOfChar rest t).map (· + 1)

/-- JavaScript `String.prototype.toLowerCase` (character-wise, which is all
the ASCII emails and channel ids in play need). -/
def jsToLower (s : String) : String :=
  String.mk (s.data.map Char.toLower)

/-- JavaScript `String.prototype.startsWith` for a single-character
argument. -/
def startsWithChar (s : String) (c : Char) : Bool :=
  match s.data with
  | [] => false
  | c0 :: _ => c0 = c

/-- JavaScript string truthiness for `string | null | undefined` values:
`none` and the empty string are falsy. -/
def strOpt : Option String → Option String
  | some s => if s = "" then none else some s
  | none => none

/-- `input.toLowerCase().replace(/\s+/g, "")` from `matchesAgentName`. -/
def normalizeAgentChars (s : String) : List Char :=
  (s.data.map Char.toLower).filter (fun c => !(isJsSpace c))

/-- `matchesAgentName` from the chatops manager: tolerant whole-string
comparison, case-insensitive and ignoring all whitespace. -/
def matchesAgentName (input agentName : String) : Bool :=
  normalizeAgentChars input == normalizeAgentChars agentName

/-- The two-pointer loop of `findTolerantMatchLength` strategy 2: consume the
(space-free) agent name from the front of the lowercased text, skipping the
space character in the text; returns the number of consumed text characters
and the unconsumed remainder when the whole name was matched. -/
def tolerantScan : List Char → List Char → Option (Nat × List Char)
  | rest, [] => some (0, rest)
  | [], _ :: _ => none
  | tc :: ts, nc :: ns =>
    if tc = nc then (tolerantScan ts ns).map (fun p => (p.fst + 1, p.snd))
    else if tc = ' ' then
      (tolerantScan ts (nc :: ns)).map (fun p => (p.fst + 1, p.snd))
    else none

/-- `findTolerantMatchLength` from the chatops manager: length of an agent-name
match at the start of `text`, by exact (spaced) prefix or by space-skipping
consumption, in both cases requiring the next character to be absent, a space,
or a newline. -/
def findTolerantMatchLength (text agentName : String) : Option Nat :=
  let lowerText := text.data.map Char.toLower
  let lowerName := agentName.data.map Char.toLower
  let strategyTwo :=
    match tolerantScan lowerText (lowerName.filter (fun c => !(isJsSpace c))) with
    | some (k, rest) =>
      match rest with
      | [] => some k
      | c :: _ => if c = ' ' || c = '\n' then some k else none
    | none => none
  if lowerName.isPrefixOf lowerText then
    match text.data.drop agentName.data.length with
    | [] => some agentName.data.length
    | c :: _ =>
      if c = ' ' || c = '\n' then some agentName.data.length else strategyTwo
  else strategyTwo

/-- The alternation `(?:Via .+?|.+? not found, using .+?)` shared by all three
footer regexes (case-insensitive, `.` excluding line terminators): decides
whether `l` can be consumed entirely by one of the two alternatives. -/
def isFooterBody (l : List Char) : Bool :=
  let lw := l.map Char.toLower
  let needle : List Char := (" not found, using ").data
  (['v', 'i', 'a', ' '].isPrefixOf lw && !(l.drop 4).isEmpty &&
    (l.drop 4).all isDotChar) ||
  ((List.range l.length).any (fun j =>
    decide (1 ≤ j) && (l.take j).all isDotChar &&
    needle.isPrefixOf (lw.drop j) &&
    !(l.drop (j + needle.length)).isEmpty &&
    (l.drop (j + needle.length)).all isDotChar))

/-- Matcher for `/\n\n---\n_(?:Via .+?|.+? not found, using .+?)_$/i` starting
at position `i` of `s` (the match necessarily extends to the end of `s`). -/
def matchMarkdownFooterAt (s : List Char) (i : Nat) : Bool :=
  let t := s.drop i
  ['\n', '\n', '-', '-', '-', '\n', '_'].isPrefixOf t &&
  (let r := t.drop 7
   match r.getLast? with
   | some '_' => isFooterBody r.dropLast
   | _ => false)

/-- Matcher for `/<hr\s*\/?>\s*<em>(?:Via .+?|.+? not found, using .+?)<\/em>$/i`
starting at position `i` of `s`. -/
def matchHtmlFooterAt (s : List Char) (i : Nat) : Bool :=
  let t := s.drop i
  if ['<', 'h', 'r'].isPrefixOf (t.map Char.toLower) then
    let afterHr := (t.drop 3).dropWhile isJsSpace
    let afterSlash := match afterHr with
      | '/' :: rest => rest
      | other => other
    match afterSlash with
    | '>' :: afterGt =>
      let beforeEm := afterGt.dropWhile isJsSpace
      if ['<', 'e', 'm', '>'].isPrefixOf (beforeEm.map Char.toLower) then
        let inner := beforeEm.drop 4
        let n := inner.length
        decide (5 ≤ n) &&
        ((inner.drop (n - 5)).map Char.toLower == ['<', '/', 'e', 'm', '>']) &&
        isFooterBody (inner.take (n - 5))
      else false
    | _ => false
  else false

/-- Matcher for `/\s*(?:Via .+?|.+? not found, using .+?)$/i` starting at
position `i` of `s`: greedy `\s*` with backtracking over how many leading
whitespace characters it absorbs. -/
def matchPlainFooterAt (s : List Char) (i : Nat) : Bool :=
  let t := s.drop i
  let m := (t.takeWhile isJsSpace).length
  (List.range (m + 1)).any (fun k => isFooterBody (t.drop k))

/-- JavaScript `String.prototype.replace` with a non-global end-anchored regex
and an empty replacement: delete from the leftmost match position (all three
footer regexes match through to the end of the string). -/
def stripFirstMatch (matchAt : List Char → Nat → Bool) (s : List Char) :
    List Char :=
  match (List.range (s.length + 1)).find? (fun i => matchAt s i) with
  | some i => s.take i
  | none => s

/-- `stripBotFooter` from the chatops manager: remove a trailing bot footer in
markdown, HTML or plain-text form, then trim. -/
def stripBotFooter (text : String) : String :=
  String.mk (jsTrimChars
    (stripFirstMatch matchPlainFooterAt
      (stripFirstMatch matchHtmlFooterAt
        (stripFirstMatch matchMarkdownFooterAt text.data))))

/-- Normalized inbound chat event (`IncomingChatMessage`); only the fields the
routing engine reads are kept. `channelTypeIm` stands for
`metadata?.channelType === "im"`. -/
structure IncomingChatMessage where
  messageId : String
  channelId : String
  workspaceId : Option String
  threadId : Option String
  senderId : String
  senderName : String
  senderEmail : Option String
  text : String
  channelTypeIm : Bool
deriving DecidableEq, Repr

/-- Internal user row as read through `UserModel.findByEmail`. -/
structure User where
  id : String
  email : String
deriving DecidableEq, Repr

/-- Agent row as read through `AgentModel`. -/
structure Agent where
  id : String
  name : String
  agentType : String
  organizationId : String
deriving DecidableEq, Repr

/-- One entry of adapter-provided thread history. -/
structure HistoryEntry where
  text : String
  senderName : String
  isFromBot : Bool
deriving DecidableEq, Repr

/-- Result of `executeA2AMessage`. -/
structure A2AResult where
  text : Option String
  messageId : Option String
deriving DecidableEq, Repr

/-- A channel discovered by a provider. -/
structure ChannelInfo where
  channelId : String
  channelName : Option String
deriving DecidableEq, Repr

/-- Ephemeral result of parsing an interactive agent-selection payload. -/
structure AgentSelection where
  userId : String
  userName : String
  channelId : String
  workspaceId : Option String
  threadTs : Option String
  agentId : String
deriving DecidableEq, Repr

/-- `ChatOpsProcessingResult`. -/
structure ProcessingResult where
  success : Bool
  error : Option String := none
  agentResponse : Option String := none
  interactionId : Option String := none
deriving DecidableEq, Repr

/-- Outcome of the authorization gate `validateUserAccess`. -/
inductive AuthResult where
  | ok (userId : String)
  | denied (error : String)
deriving DecidableEq, Repr

/-- Unique key of a channel binding: (platform, channel, workspace). -/
structure BindingKey where
  provider : String
  channelId : String
  workspaceId : Option String
deriving DecidableEq, Repr

/-- Persisted channel binding row (`ChatOpsChannelBindingModel`). -/
structure ChannelBinding where
  organizationId : String
  channelName : Option String
  isDm : Bool
  dmOwnerEmail : Option String
  agentId : Option String
deriving DecidableEq, Repr

/-- Arguments of `ChatOpsChannelBindingModel.upsertByChannel`. -/
structure UpsertParams where
  organizationId : String
  provider : String
  channelId : String
  workspaceId : Option String
  workspaceName : Option String := none
  channelName : Option String := none
  isDm : Bool := false
  dmOwnerEmail : Option String := none
  agentId : Option String := none
deriving DecidableEq, Repr

/-- The binding store (the only persisted state the claims touch). -/
structure DB where
  bindings : List (BindingKey × ChannelBinding)
deriving DecidableEq, Repr

/-- Modelled from the spec: `ChatOpsChannelBindingModel.findByChannel` (the
model implementation lives outside the included sources) — look a binding up
by its (platform, channel, workspace) key. -/
def findByChannel (db : DB) (k : BindingKey) : Option ChannelBinding :=
  (db.bindings.find? (fun q => q.fst == k)).map Prod.snd

/-- Modelled from the spec: the update half of
`ChatOpsChannelBindingModel.upsertByChannel` — selection completion sets
`agentId` and replaces the DM-specific display metadata of an existing row. -/
def applyUpsert (old : ChannelBinding) (p : UpsertParams) : ChannelBinding :=
  { organizationId := p.organizationId
    channelName := match p.channelName with
      | some n => some n
      | none => old.channelName
    isDm := p.isDm
    dmOwnerEmail := p.dmOwnerEmail
    agentId := match p.agentId with
      | some a => some a
      | none => old.agentId }

/-- Row created for a key that has no binding yet (`agentId` defaults to
null when the caller supplies none). -/
def newBindingOfParams (p : UpsertParams) : ChannelBinding :=
  { organizationId := p.organizationId
    channelName := p.channelName
    isDm := p.isDm
    dmOwnerEmail := p.dmOwnerEmail
    agentId := p.agentId }

/-- Modelled from the spec: `ChatOpsChannelBindingModel.upsertByChannel` —
create the row when absent, update it in place when present; the row stays
uniquely keyed by (platform, channel, workspace). -/
def upsertByChannel (db : DB) (p : UpsertParams) : DB :=
  let k : BindingKey := ⟨p.provider, p.channelId, p.workspaceId⟩
  if (db.bindings.find? (fun q => q.fst == k)).isSome then
    ⟨db.bindings.map (fun q =>
      if q.fst == k then (k, applyUpsert q.snd p) else q)⟩
  else
    ⟨db.bindings ++ [(k, newBindingOfParams p)]⟩

/-- Observable side effects of the engine: calls into the dedup store, the
agent executor, and the platform adapter, plus the channel-discovery
persistence calls. -/
inductive Effect where
  | tryMark (messageId : String)
  | executeAgent (agentId organizationId message userId : String)
  | sendReply (text : String) (footer : Option String)
  | sendSelectionCard (agentIds : List String) (isWelcome : Bool)
  | spawnDiscover (workspaceId : String)
  | upsertBinding (channelId : String) (agentId : Option String)
  | providerDiscover
  | ensureChannels (organizationId : String) (channelIds : List String)
  | deleteStale (workspaceIds activeChannelIds : List String)
  | dedupBindings (channelIds : List String)
  | cacheSet (key : String)
  | getHistory (threadId : String)
deriving DecidableEq, Repr

/-- Whether an effect is an invocation of the agent executor. -/
def isAgentExecution : Effect → Bool
  | Effect.executeAgent _ _ _ _ => true
  | _ => false

/-- Whether an effect is a reply delivered through the adapter. -/
def isReplyDelivery : Effect → Bool
  | Effect.sendReply _ _ => true
  | _ => false

/-- Whether an effect is a consultation of the dedup gate. -/
def isDedupConsult : Effect → Bool
  | Effect.tryMark _ => true
  | _ => false

/-- Whether an effect is an agent-selection card delivery. -/
def isSelectionCard : Effect → Bool
  | Effect.sendSelectionCard _ _ => true
  | _ => false

/-- External collaborators of the engine, fixed for one scenario: adapter
lookups, model reads, the dedup gate's verdict, the agent executor, and the
discovery-time persistence calls (a `false`/`error` value models the
collaborator throwing). -/
structure Env where
  parseMessage : Option IncomingChatMessage
  parseInteractive : Option AgentSelection
  getUserEmail : String → Option String
  findUserByEmail : String → Option User
  internalAgents : List Agent
  findAgentById : String → Option Agent
  firstOrgId : Option String
  agentAdmin : String → String → Bool
  teamAccess : String → String → Bool
  accessibleAgentIds : String → Bool → List String
  tryMark : String → Bool
  threadHistory : Except Unit (List HistoryEntry)
  executeA2A : String → String → String → String → Except String A2AResult
  workspaceName : Option String
  cacheGet : String → Bool
  providerChannels : Except Unit (List ChannelInfo)
  ensureChannelsOk : Bool
  deleteStaleOk : Bool
  deduplicateOk : Bool

/-- Modelled from the spec: `AgentTeamModel.userHasAgentAccess` (the model
implementation lives outside the included sources) — administrative rights
over agents grant access to every agent, otherwise the user needs team-based
access to the specific agent. -/
def userHasAgentAccess (env : Env) (userId agentId : String)
    (isAdmin : Bool) : Bool :=
  isAdmin || env.teamAccess userId agentId

/-- Result of `resolveInlineAgentMention`. -/
structure MentionResolution where
  agentToUse : Agent
  cleanedMessageText : String
  fallbackMessage : Option String := none
deriving DecidableEq, Repr

/-- `ChatOpsManager.resolveInlineAgentMention`: parse an optional
`"AgentName > message"` override. `availableAgents` is the list returned by
`AgentModel.findAllInternalAgents`. -/
def resolveInlineAgentMention (availableAgents : List Agent)
    (messageText : String) (defaultAgent : Agent) : MentionResolution :=
  match indexOfChar messageText.data '>' with
  | none => ⟨defaultAgent, messageText, none⟩
  | some delimiterIndex =>
    let potentialAgentName :=
      String.mk (jsTrimChars (messageText.data.take delimiterIndex))
    let messageAfterDelimiter :=
      String.mk (jsTrimChars (messageText.data.drop (delimiterIndex + 1)))
    if potentialAgentName = "" then ⟨defaultAgent, messageText, none⟩
    else
      match availableAgents.find?
          (fun a => matchesAgentName potentialAgentName a.name) with
      | some agent => ⟨agent, messageAfterDelimiter, none⟩
      | none =>
        ⟨defaultAgent,
         if messageAfterDelimiter = "" then messageText
         else messageAfterDelimiter,
         some ("\"" ++ potentialAgentName ++ "\" not found, using " ++
           defaultAgent.name)⟩

/-- `ChatOpsManager.sendSecurityErrorReply`: the denial reply sent through the
adapter (delivery failures are caught and only logged, so the attempt itself
is the observable effect). -/
def securityErrorReply (errorText : String) : List Effect :=
  [Effect.sendReply ("⚠️ **Access Denied**\n\n" ++ errorText)
    (some "Security check failed")]

/-- The email-resolution step at the head of
`ChatOpsManager.validateUserAccess`: the adapter's pre-resolved email first,
the identity-lookup capability second. -/
def resolvedUserEmail (env : Env) (message : IncomingChatMessage) :
    Option String :=
  match strOpt message.senderEmail with
  | some e => some e
  | none => strOpt (env.getUserEmail message.senderId)

/-- `ChatOpsManager.validateUserAccess` continued: identity, registration and
agent-access checks, each denial sending a security reply. -/
def validateUserAccess (env : Env) (message : IncomingChatMessage)
    (agentId agentName organizationId : String) : AuthResult × List Effect :=
  match resolvedUserEmail env message with
  | none =>
    (AuthResult.denied "Could not resolve user email for security validation",
     securityErrorReply
       "Could not verify your identity. Please ensure the bot is properly installed in your team or chat.")
  | some email =>
    match env.findUserByEmail (jsToLower email) with
    | none =>
      (AuthResult.denied
        ("Unauthorized: " ++ email ++ " is not a registered Archestra user"),
       securityErrorReply
         ("You (" ++ email ++
          ") are not a registered Archestra user. Contact your administrator for access."))
    | some user =>
      let isAgentAdmin := env.agentAdmin user.id organizationId
      if userHasAgentAccess env user.id agentId isAgentAdmin then
        (AuthResult.ok user.id, [])
      else
        (AuthResult.denied
          "Unauthorized: user does not have access to this agent",
         securityErrorReply
           ("You don't have access to the agent \"" ++ agentName ++
            "\". Contact your administrator for access."))

/-- `ChatOpsManager.fetchThreadHistory`: empty context without a thread id;
otherwise render each history entry as `"<sender-or-Assistant>: <text>"`,
stripping the bot footer from bot-authored entries; a fetch failure degrades
to an empty context. -/
def fetchThreadHistory (env : Env) (message : IncomingChatMessage) :
    List String × List Effect :=
  match strOpt message.threadId with
  | none => ([], [])
  | some threadId =>
    match env.threadHistory with
    | Except.error _ => ([], [Effect.getHistory threadId])
    | Except.ok history =>
      (history.map (fun msg =>
        let text := if msg.isFromBot then stripBotFooter msg.text else msg.text
        let sender := if msg.isFromBot then "Assistant" else msg.senderName
        sender ++ ": " ++ text),
       [Effect.getHistory threadId])

/-- `ChatOpsManager.executeAndReply`: run the agent inside the trace span and
deliver the reply (or a generic apology on failure) through the adapter.
`fallbackMessage` is accepted but, as in the source, never read. -/
def executeAndReply (env : Env) (agent : Agent) (bindingOrgId : String)
    (_message : IncomingChatMessage) (fullMessage : String) (sendReply : Bool)
    (fallbackMessage : Option String) (userId : String) :
    ProcessingResult × List Effect :=
  let _ := fallbackMessage
  let executed := [Effect.executeAgent agent.id bindingOrgId fullMessage userId]
  match env.executeA2A agent.id bindingOrgId fullMessage userId with
  | Except.ok result =>
    let agentResponse := result.text.getD ""
    let replies :=
      if sendReply ∧ agentResponse ≠ "" then
        [Effect.sendReply agentResponse (some ("Via " ++ agent.name))]
      else []
    ({ success := true, agentResponse := some agentResponse,
       interactionId := result.messageId }, executed ++ replies)
  | Except.error err =>
    let replies :=
      if sendReply then
        [Effect.sendReply
          "Sorry, I encountered an error processing your request." none]
      else []
    ({ success := false, error := some err }, executed ++ replies)

/-- `ChatOpsManager.processMessage`: dedup gate, binding lookup, agent
verification, inline-mention resolution, authorization, context assembly,
execution and reply. -/
def processMessage (env : Env) (db : DB) (providerId : String)
    (message : IncomingChatMessage) (sendReply : Bool) :
    ProcessingResult × List Effect :=
  let isNew := env.tryMark message.messageId
  let consulted := [Effect.tryMark message.messageId]
  if !isNew then ({ success := true }, consulted)
  else
    match findByChannel db ⟨providerId, message.channelId, message.workspaceId⟩ with
    | none => ({ success := true, error := some "NO_BINDING" }, consulted)
    | some binding =>
      match strOpt binding.agentId with
      | none =>
        ({ success := false, error := some "NO_AGENT_ASSIGNED" }, consulted)
      | some boundAgentId =>
        match env.findAgentById boundAgentId with
        | none =>
          ({ success := false, error := some "AGENT_NOT_FOUND" }, consulted)
        | some agent =>
          if agent.agentType ≠ "agent" then
            ({ success := false, error := some "AGENT_NOT_FOUND" }, consulted)
          else
            let r := resolveInlineAgentMention env.internalAgents
              message.text agent
            match validateUserAccess env message r.agentToUse.id
                r.agentToUse.name agent.organizationId with
            | (AuthResult.denied err, authEffects) =>
              ({ success := false, error := some err },
               consulted ++ authEffects)
            | (AuthResult.ok userId, authEffects) =>
              let fetched := fetchThreadHistory env message
              let fullMessage :=
                if fetched.fst.length > 0 then
                  "Previous conversation:\n" ++
                    String.intercalate "\n" fetched.fst ++
                    "\n\nUser: " ++ r.cleanedMessageText
                else r.cleanedMessageText
              let outcome := executeAndReply env r.agentToUse
                binding.organizationId message fullMessage sendReply
                r.fallbackMessage userId
              (outcome.fst,
               consulted ++ authEffects ++ fetched.snd ++ outcome.snd)

/-- `ChatOpsManager.getAccessibleChatopsAgents`: all internal agents, filtered
by the sender's team access when the sender resolves to a registered user. -/
def getAccessibleChatopsAgents (env : Env) (senderEmail : Option String) :
    List Agent :=
  let agents := env.internalAgents
  match strOpt senderEmail with
  | none => agents
  | some email =>
    if agents.isEmpty then agents
    else
      match env.findUserByEmail (jsToLower email) with
      | none => agents
      | some user =>
        match env.firstOrgId with
        | none => agents
        | some orgId =>
          let isAgentAdmin := env.agentAdmin user.id orgId
          let accessible := env.accessibleAgentIds user.id isAgentAdmin
          agents.filter (fun a => accessible.contains a.id)

/-- `ChatOpsManager.sendSlackAgentSelectionCard`: deliver the agent-selection
card, or a "no agents available" notice when the sender can access none. -/
def sendSlackAgentSelectionCard (env : Env) (message : IncomingChatMessage)
    (isWelcome : Bool) : List Effect :=
  let agents := getAccessibleChatopsAgents env message.senderEmail
  if agents.isEmpty then
    [Effect.sendReply
      "No agents are available for you in Slack.\nContact your administrator to get access to an agent with Slack enabled."
      none]
  else
    [Effect.sendSelectionCard (agents.map (fun a => a.id)) isWelcome]

/-- `ChatOpsManager.handleSlackMessage`: parse, fire-and-forget channel
discovery, identity resolution and registration check, binding check, then
agent-selection prompt or `processMessage`. Returns `none` when the
organization lookup inside the binding-creation branch throws. -/
def handleSlackMessage (env : Env) (db : DB) : Option (DB × List Effect) :=
  match env.parseMessage with
  | none => some (db, [])
  | some parsed =>
    let discovery : List Effect :=
      match strOpt parsed.workspaceId with
      | some w => [Effect.spawnDiscover w]
      | none => []
    let senderEmail :=
      match strOpt (env.getUserEmail parsed.senderId) with
      | some e => some e
      | none => strOpt parsed.senderEmail
    match senderEmail with
    | none =>
      some (db, discovery ++
        [Effect.sendReply
          "Could not verify your identity. Please ensure your Slack profile has an email configured."
          none])
    | some email =>
      let message := { parsed with senderEmail := some email }
      match env.findUserByEmail (jsToLower email) with
      | none =>
        some (db, discovery ++
          [Effect.sendReply
            ("You (" ++ email ++
             ") are not a registered Archestra user. Contact your administrator for access.")
            none])
      | some _user =>
        let key : BindingKey := ⟨"slack", message.channelId, message.workspaceId⟩
        match findByChannel db key with
        | some binding =>
          if (strOpt binding.agentId).isSome then
            let outcome := processMessage env db "slack" message true
            some (db, discovery ++ outcome.snd)
          else
            some (db, discovery ++ sendSlackAgentSelectionCard env message true)
        | none =>
          match env.firstOrgId with
          | none => none
          | some organizationId =>
            let isSlackDm := message.channelTypeIm
            let db' := upsertByChannel db
              { organizationId := organizationId
                provider := "slack"
                channelId := message.channelId
                workspaceId := message.workspaceId
                workspaceName := env.workspaceName
                channelName :=
                  if isSlackDm then some ("Direct Message - " ++ email)
                  else none
                isDm := isSlackDm
                dmOwnerEmail := if isSlackDm then some email else none
                agentId := none }
            some (db', discovery ++
              [Effect.upsertBinding message.channelId none] ++
              sendSlackAgentSelectionCard env message true)

/-- `ChatOpsManager.handleSlackInteractive`: verify the clicking user is a
registered user and the chosen agent exists, then upsert the binding with the
chosen `agentId` and confirm in the thread. Verification failures return
silently (they are only logged). Returns `none` when the organization lookup
throws. -/
def handleSlackInteractive (env : Env) (db : DB) :
    Option (DB × List Effect) :=
  match env.parseInteractive with
  | none => some (db, [])
  | some selection =>
    match strOpt (env.getUserEmail selection.userId) with
    | none => some (db, [])
    | some senderEmail =>
      match env.findUserByEmail (jsToLower senderEmail) with
      | none => some (db, [])
      | some _user =>
        match env.findAgentById selection.agentId with
        | none => some (db, [])
        | some agent =>
          match env.firstOrgId with
          | none => none
          | some organizationId =>
            let isSlackDm := startsWithChar selection.channelId (Char.ofNat 68)
            let db' := upsertByChannel db
              { organizationId := organizationId
                provider := "slack"
                channelId := selection.channelId
                workspaceId := selection.workspaceId
                workspaceName := env.workspaceName
                channelName :=
                  if isSlackDm then some ("Direct Message - " ++ senderEmail)
                  else none
                isDm := isSlackDm
                dmOwnerEmail := if isSlackDm then some senderEmail else none
                agentId := some selection.agentId }
            some (db',
              [Effect.upsertBinding selection.channelId
                 (some selection.agentId),
               Effect.sendReply
                 ("Agent *" ++ agent.name ++ "* is now bound to this " ++
                  (if isSlackDm then "conversation" else "channel") ++
                  ".\nSend a message to start interacting!")
                 none])

/-- Modelled from the spec: the distributed TTL cache key for channel
discovery, keyed on (platform, workspaceId); the literal prefix constant
(`CacheKey.ChannelDiscovery`) lives in the cache-manager module outside the
included sources. -/
def channelDiscoveryCacheKey (providerId workspaceId : String) : String :=
  "chatops-channel-discovery-" ++ providerId ++ "-" ++ workspaceId

/-- `ChatOpsManager.discoverChannels`: TTL-cache guard, provider listing,
binding upsert, stale deletion over the union of workspace-id aliases,
binding deduplication, and only then the cache-guard write; every failure is
caught (the effect list stops at the failing call). -/
def discoverChannels (env : Env) (providerId workspaceId : String)
    (allWorkspaceIds : Option (List String)) : List Effect :=
  let cacheKey := channelDiscoveryCacheKey providerId workspaceId
  if env.cacheGet cacheKey then []
  else
    match env.providerChannels with
    | Except.error _ => [Effect.providerDiscover]
    | Except.ok channels =>
      if channels.isEmpty then [Effect.providerDiscover]
      else
        match env.firstOrgId with
        | none => [Effect.providerDiscover]
        | some organizationId =>
          let activeChannelIds := channels.map (fun c => c.channelId)
          let afterEnsure :=
            [Effect.providerDiscover,
             Effect.ensureChannels organizationId activeChannelIds]
          if !env.ensureChannelsOk then afterEnsure
          else
            let workspaceIds :=
              match allWorkspaceIds with
              | some l => if l.isEmpty then [workspaceId] else l
              | none => [workspaceId]
            let afterDelete :=
              afterEnsure ++ [Effect.deleteStale workspaceIds activeChannelIds]
            if !env.deleteStaleOk then afterDelete
            else
              let afterDedup :=
                afterDelete ++ [Effect.dedupBindings activeChannelIds]
              if !env.deduplicateOk then afterDedup
              else afterDedup ++ [Effect.cacheSet cacheKey]

/-! Concrete fixtures used by counterexamples and witnesses. -/

/-- A known internal agent. -/
def agentPeter : Agent := ⟨"a-peter", "Agent Peter", "agent", "org1"⟩

/-- The agent bound to the test channels. -/
def agentDefault : Agent := ⟨"a-default", "Default", "agent", "org1"⟩

/-- A registered internal user. -/
def userAlice : User := ⟨"u1", "alice@example.com"⟩

/-- Baseline environment: a registered sender with team access to both test
agents, a dedup gate that reports the message as new, and collaborators that
succeed. -/
def envBase : Env :=
  { parseMessage := none
    parseInteractive := none
    getUserEmail := fun _ => some "alice@example.com"
    findUserByEmail := fun e =>
      if e = "alice@example.com" then some userAlice else none
    internalAgents := [agentPeter, agentDefault]
    findAgentById := fun i =>
      if i = "a-peter" then some agentPeter
      else if i = "a-default" then some agentDefault
      else none
    firstOrgId := some "org1"
    agentAdmin := fun _ _ => false
    teamAccess := fun _ _ => true
    accessibleAgentIds := fun _ _ => ["a-peter", "a-default"]
    tryMark := fun _ => true
    threadHistory := Except.ok []
    executeA2A := fun _ _ _ _ => Except.ok ⟨some "All good!", some "int-1"⟩
    workspaceName := some "Acme"
    cacheGet := fun _ => false
    providerChannels := Except.ok []
    ensureChannelsOk := true
    deleteStaleOk := true
    deduplicateOk := true }

/-- Baseline inbound message. -/
def msgBase : IncomingChatMessage :=
  { messageId := "m1", channelId := "CH1", workspaceId := some "W1"
    threadId := none, senderId := "U1", senderName := "Alice"
    senderEmail := some "alice@example.com", text := "hello"
    channelTypeIm := false }

/-- A store holding one binding for channel `CH1` bound to the default
agent. -/
def dbBound : DB :=
  ⟨[(⟨"slack", "CH1", some "W1"⟩,
     ⟨"org1", none, false, none, some "a-default"⟩)]⟩

/-- A store holding one binding for channel `CH1` with no agent assigned. -/
def dbUnassigned : DB :=
  ⟨[(⟨"slack", "CH1", some "W1"⟩, ⟨"org1", none, false, none, none⟩)]⟩

/-- The empty binding store. -/
def dbEmpty : DB := ⟨[]⟩

/-! Theorems settling the claims. -/

/-- Claim C1: for every incoming message whose identifier the dedup gate
reports as already processed (`tryMarkAsProcessed` returns false),
`processMessage` returns a success result, performs no agent execution and
sends no reply. -/
theorem claim1_duplicate_message_no_reexecution
    (env : Env) (db : DB) (providerId : String)
    (message : IncomingChatMessage) (sendReply : Bool)
    (h : env.tryMark message.messageId = false) :
    (processMessage env db providerId message sendReply).fst =
      { success := true } ∧
    (processMessage env db providerId message sendReply).snd.all
      (fun e => !isAgentExecution e && !isReplyDelivery e) = true := by
  simp [processMessage, h, isAgentExecution, isReplyDelivery]

/-- Witness for C1: a concrete redelivered message on a bound channel. -/
theorem claim1_witness :
    (processMessage { envBase with tryMark := fun _ => false } dbBound "slack"
        msgBase true).fst = { success := true } ∧
    (processMessage { envBase with tryMark := fun _ => false } dbBound "slack"
        msgBase true).snd.all
      (fun e => !isAgentExecution e && !isReplyDelivery e) = true :=
  claim1_duplicate_message_no_reexecution _ _ _ _ _ rfl

/-- Counterexample to C3 as stated: the claim's prefix-with-boundary matching
(the semantics of `findTolerantMatchLength`, which accepts "Agent Peter hello"
as a mention of "Agent Peter" because the prefix is followed by a space)
disagrees with the resolver, which uses whole-candidate matching via
`matchesAgentName` and therefore falls back to the default agent on the same
input. -/
theorem claim3_counterexample :
    findTolerantMatchLength "Agent Peter hello" "Agent Peter" = some 11 ∧
    matchesAgentName "Agent Peter hello" "Agent Peter" = false ∧
    resolveInlineAgentMention [agentPeter] "Agent Peter hello > hi"
        agentDefault =
      ⟨agentDefault, "hi",
       some "\"Agent Peter hello\" not found, using Default"⟩ ∧
    agentDefault ≠ agentPeter := by
  refine ⟨by decide, by decide, by decide, by decide⟩

/-- Claim C3 as amended: the resolver matches the trimmed text before the
first `>` against a known agent name by whole-candidate equality after
lowercasing and removing all whitespace — no prefix matching and no boundary
rule — returning the first such agent together with the trimmed text after
the delimiter; "AgentPeter", "agent peter" and "Agent Peter" all match
"Agent Peter", while "AgentPetersburg" and a candidate with trailing words
("Agent Peter hello") do not. -/
theorem claim3_amended :
    (∀ (availableAgents : List Agent) (messageText : String)
       (defaultAgent : Agent) (i : Nat) (b : Agent),
      indexOfChar messageText.data '>' = some i →
      String.mk (jsTrimChars (messageText.data.take i)) ≠ "" →
      availableAgents.find?
          (fun a => matchesAgentName
            (String.mk (jsTrimChars (messageText.data.take i))) a.name) =
        some b →
      resolveInlineAgentMention availableAgents messageText defaultAgent =
        ⟨b, String.mk (jsTrimChars (messageText.data.drop (i + 1))), none⟩) ∧
    matchesAgentName "AgentPeter" "Agent Peter" = true ∧
    matchesAgentName "agent peter" "Agent Peter" = true ∧
    matchesAgentName "Agent Peter" "Agent Peter" = true ∧
    matchesAgentName "AgentPetersburg" "Agent Peter" = false ∧
    matchesAgentName "Agent Peter hello" "Agent Peter" = false := by
  refine ⟨?_, by decide, by decide, by decide, by decide, by decide⟩
  intro availableAgents messageText defaultAgent i b hidx hne hfind
  simp [resolveInlineAgentMention, hidx, hne, hfind]

/-- Witness for C3 (amended): a concrete tolerant match through the
resolver. -/
theorem claim3_witness :
    resolveInlineAgentMention [agentPeter, agentDefault] "agentpeter>status?"
        agentDefault = ⟨agentPeter, "status?", none⟩ :=
  claim3_amended.1 [agentPeter, agentDefault] "agentpeter>status?"
    agentDefault 10 agentPeter (by decide) (by decide) (by decide)

/-- Claim C4 (code bug): the resolver's fallback produces the human-readable
notice (`"Unknown" not found, using Default`) and hands it to
`executeAndReply`, but `executeAndReply` never reads `fallbackMessage`, so
the delivered reply's footer is exactly `Via Default` with no trace of the
notice. -/
theorem claim4_fallback_notice_dropped :
    (resolveInlineAgentMention envBase.internalAgents "Unknown > hello"
        agentDefault).fallbackMessage =
      some "\"Unknown\" not found, using Default" ∧
    processMessage envBase dbBound "slack"
        { msgBase with text := "Unknown > hello" } true =
      ({ success := true, agentResponse := some "All good!",
         interactionId := some "int-1" },
       [Effect.tryMark "m1",
        Effect.executeAgent "a-default" "org1" "hello" "u1",
        Effect.sendReply "All good!" (some "Via Default")]) := by
  refine ⟨by decide, by decide⟩

/-- Counterexample to C6 as stated: a successful execution whose response
text is empty sends no reply at all, leaving the human without a response
even though reply delivery was enabled. -/
theorem claim6_counterexample :
    executeAndReply
        { envBase with
          executeA2A := fun _ _ _ _ => Except.ok ⟨some "", some "int-2"⟩ }
        agentDefault "org1" msgBase "hi" true none "u1" =
      ({ success := true, agentResponse := some "",
         interactionId := some "int-2" },
       [Effect.executeAgent "a-default" "org1" "hi" "u1"]) ∧
    (executeAndReply
        { envBase with
          executeA2A := fun _ _ _ _ => Except.ok ⟨some "", some "int-2"⟩ }
        agentDefault "org1" msgBase "hi" true none "u1").snd.all
      (fun e => !isReplyDelivery e) = true := by
  refine ⟨by decide, by decide⟩

/-- Claim C6 as amended: with reply delivery enabled the dispatcher replies
with the agent's response text on success whenever that text is non-empty (an
empty successful response sends no reply), and with a fixed generic apology on
failure; the apology is a constant independent of the thrown error, so raw
internal exception text never reaches the platform, and the structured result
reports success or failure (carrying the internal error only in the returned
record). -/
theorem claim6_amended (env : Env) (agent : Agent) (bindingOrgId : String)
    (message : IncomingChatMessage) (fullMessage : String)
    (fallbackMessage : Option String) (userId : String) :
    (∀ result, env.executeA2A agent.id bindingOrgId fullMessage userId =
        Except.ok result →
      (result.text.getD "" ≠ "" →
        executeAndReply env agent bindingOrgId message fullMessage true
            fallbackMessage userId =
          ({ success := true, agentResponse := some (result.text.getD ""),
             interactionId := result.messageId },
           [Effect.executeAgent agent.id bindingOrgId fullMessage userId,
            Effect.sendReply (result.text.getD "")
              (some ("Via " ++ agent.name))])) ∧
      (result.text.getD "" = "" →
        executeAndReply env agent bindingOrgId message fullMessage true
            fallbackMessage userId =
          ({ success := true, agentResponse := some "",
             interactionId := result.messageId },
           [Effect.executeAgent agent.id bindingOrgId fullMessage userId]))) ∧
    (∀ err, env.executeA2A agent.id bindingOrgId fullMessage userId =
        Except.error err →
      executeAndReply env agent bindingOrgId message fullMessage true
          fallbackMessage userId =
        ({ success := false, error := some err },
         [Effect.executeAgent agent.id bindingOrgId fullMessage userId,
          Effect.sendReply
            "Sorry, I encountered an error processing your request."
            none])) := by
  constructor
  · intro result hok
    constructor
    · intro hne
      simp [executeAndReply, hok, hne]
    · intro heq
      simp [executeAndReply, hok, heq]
  · intro err herr
    simp [executeAndReply, herr]

/-- Witness for C6 (amended): concrete success and failure deliveries. -/
theorem claim6_amended_witness :
    executeAndReply envBase agentDefault "org1" msgBase "hi" true none "u1" =
      ({ success := true, agentResponse := some "All good!",
         interactionId := some "int-1" },
       [Effect.executeAgent "a-default" "org1" "hi" "u1",
        Effect.sendReply "All good!" (some "Via Default")]) ∧
    executeAndReply
        { envBase with executeA2A := fun _ _ _ _ => Except.error "boom" }
        agentDefault "org1" msgBase "hi" true none "u1" =
      ({ success := false, error := some "boom" },
       [Effect.executeAgent "a-default" "org1" "hi" "u1",
        Effect.sendReply
          "Sorry, I encountered an error processing your request." none]) :=
  ⟨((claim6_amended envBase agentDefault "org1" msgBase "hi" none "u1").1
      ⟨some "All good!", some "int-1"⟩ rfl).1 (by decide),
   (claim6_amended
      { envBase with executeA2A := fun _ _ _ _ => Except.error "boom" }
      agentDefault "org1" msgBase "hi" none "u1").2 "boom" rfl⟩

/-- `find?` skips a whole first list on which the predicate never fires. -/
theorem find?_append_of_none {α : Type} (l₁ l₂ : List α) (p : α → Bool)
    (h : l₁.find? p = none) : (l₁ ++ l₂).find? p = l₂.find? p := by
  induction l₁ with
  | nil => rfl
  | cons a l ih =>
    rw [List.cons_append]
    cases hpa : p a with
    | false =>
      rw [List.find?_cons_of_neg _ (by simp [hpa])] at h ⊢
      exact ih h
    | true =>
      rw [List.find?_cons_of_pos _ hpa] at h
      exact absurd h (by simp)

/-- Upserting into a store that has no row for the key creates exactly the
row described by the parameters. -/
theorem findByChannel_upsert_new (db : DB) (p : UpsertParams)
    (h : findByChannel db ⟨p.provider, p.channelId, p.workspaceId⟩ = none) :
    findByChannel (upsertByChannel db p)
        ⟨p.provider, p.channelId, p.workspaceId⟩ =
      some (newBindingOfParams p) := by
  have hf : db.bindings.find?
      (fun q => q.fst == (⟨p.provider, p.channelId, p.workspaceId⟩ : BindingKey)) =
      none := by
    cases hx : db.bindings.find?
        (fun q => q.fst == (⟨p.provider, p.channelId, p.workspaceId⟩ : BindingKey)) with
    | none => rfl
    | some q => rw [findByChannel, hx] at h; exact absurd h (by simp)
  rw [upsertByChannel]
  simp only [hf, Option.isSome_none, Bool.false_eq_true, if_false]
  rw [findByChannel]
  rw [find?_append_of_none _ _ _ hf]
  simp [List.find?_cons]

/-- Counterexample to C2 as stated: a registered user with neither admin
rights nor team access to agent `a-peter` completes an interactive selection,
and the binding is nevertheless updated to `a-peter` — the access check is
absent from the interactive path. -/
theorem claim2_counterexample :
    userHasAgentAccess
        { envBase with
          parseInteractive := some ⟨"U1", "Alice", "CH2", some "W1", none, "a-peter"⟩
          teamAccess := fun _ _ => false }
        "u1" "a-peter" false = false ∧
    ({ envBase with
       parseInteractive := some ⟨"U1", "Alice", "CH2", some "W1", none, "a-peter"⟩
       teamAccess := fun _ _ => false } : Env).agentAdmin "u1" "org1" = false ∧
    handleSlackInteractive
        { envBase with
          parseInteractive := some ⟨"U1", "Alice", "CH2", some "W1", none, "a-peter"⟩
          teamAccess := fun _ _ => false }
        dbEmpty =
      some (⟨[(⟨"slack", "CH2", some "W1"⟩,
               ⟨"org1", none, false, none, some "a-peter"⟩)]⟩,
        [Effect.upsertBinding "CH2" (some "a-peter"),
         Effect.sendReply
           "Agent *Agent Peter* is now bound to this channel.\nSend a message to start interacting!"
           none]) := by
  refine ⟨by decide, by decide, by decide⟩

/-- Claim C2 as amended: an interactive selection updates the binding only
after the selecting user's email is resolved, a registered internal user is
found for it, and the chosen agent exists; any of these checks failing leaves
the store untouched (and emits nothing). Team-based/admin access to the
chosen agent is not checked at selection time; it is enforced later, on every
message, by the authorization gate. Display name alone never suffices: only
the resolved email enters the user lookup. -/
theorem claim2_amended (env : Env) (db : DB) (selection : AgentSelection)
    (hsel : env.parseInteractive = some selection) :
    (strOpt (env.getUserEmail selection.userId) = none →
      handleSlackInteractive env db = some (db, [])) ∧
    (∀ email, strOpt (env.getUserEmail selection.userId) = some email →
      env.findUserByEmail (jsToLower email) = none →
      handleSlackInteractive env db = some (db, [])) ∧
    (∀ email user, strOpt (env.getUserEmail selection.userId) = some email →
      env.findUserByEmail (jsToLower email) = some user →
      env.findAgentById selection.agentId = none →
      handleSlackInteractive env db = some (db, [])) ∧
    (∀ db' effects, handleSlackInteractive env db = some (db', effects) →
      (∃ c aid, Effect.upsertBinding c aid ∈ effects) →
      ∃ email user agent,
        strOpt (env.getUserEmail selection.userId) = some email ∧
        env.findUserByEmail (jsToLower email) = some user ∧
        env.findAgentById selection.agentId = some agent) := by
  refine ⟨?_, ?_, ?_, ?_⟩
  · intro h
    simp [handleSlackInteractive, hsel, h]
  · intro email h1 h2
    simp [handleSlackInteractive, hsel, h1, h2]
  · intro email user h1 h2 h3
    simp [handleSlackInteractive, hsel, h1, h2, h3]
  · intro db' effects hrun hup
    obtain ⟨c, aid, hmem⟩ := hup
    cases h1 : strOpt (env.getUserEmail selection.userId) with
    | none =>
      simp [handleSlackInteractive, hsel, h1] at hrun
      rw [hrun.2] at hmem
      simp at hmem
    | some email =>
      cases h2 : env.findUserByEmail (jsToLower email) with
      | none =>
        simp [handleSlackInteractive, hsel, h1, h2] at hrun
        rw [hrun.2] at hmem
        simp at hmem
      | some user =>
        cases h3 : env.findAgentById selection.agentId with
        | none =>
          simp [handleSlackInteractive, hsel, h1, h2, h3] at hrun
          rw [hrun.2] at hmem
          simp at hmem
        | some agent => exact ⟨email, user, agent, rfl, h2, rfl⟩

/-- Witness for C2 (amended): a selection click by a user whose email cannot
be resolved changes nothing. -/
theorem claim2_witness :
    handleSlackInteractive
        { envBase with
          parseInteractive := some ⟨"U9", "Eve", "CH2", some "W1", none, "a-peter"⟩
          getUserEmail := fun _ => none }
        dbBound = some (dbBound, []) :=
  (claim2_amended
      { envBase with
        parseInteractive := some ⟨"U9", "Eve", "CH2", some "W1", none, "a-peter"⟩
        getUserEmail := fun _ => none }
      dbBound ⟨"U9", "Eve", "CH2", some "W1", none, "a-peter"⟩ rfl).1 rfl

/-- Counterexample to C5 as stated: denials during interactive-selection
verification are silent — an unresolvable email and an unregistered email
both end the interaction with no reply of any kind. -/
theorem claim5_counterexample :
    handleSlackInteractive
        { envBase with
          parseInteractive := some ⟨"U2", "Mallory", "CH5", some "W1", none, "a-peter"⟩
          getUserEmail := fun _ => none }
        dbEmpty = some (dbEmpty, []) ∧
    handleSlackInteractive
        { envBase with
          parseInteractive := some ⟨"U2", "Mallory", "CH5", some "W1", none, "a-peter"⟩
          getUserEmail := fun _ => some "mallory@example.com" }
        dbEmpty = some (dbEmpty, []) := by
  refine ⟨by decide, by decide⟩

/-- Claim C5 as amended: in message processing every authorization denial
replies with a step-specific reason — an identity-verification message when
no email resolves, a message quoting the email when it belongs to no
registered user, a message naming the target agent when the user has neither
admin rights nor team access — and a registered admin is allowed; denials
during interactive-selection verification, however, are silently dropped
(logged only, no reply). -/
theorem claim5_amended (env : Env) (db : DB) (message : IncomingChatMessage)
    (agentId agentName organizationId : String) :
    (resolvedUserEmail env message = none →
      validateUserAccess env message agentId agentName organizationId =
        (AuthResult.denied
          "Could not resolve user email for security validation",
         [Effect.sendReply
           "⚠️ **Access Denied**\n\nCould not verify your identity. Please ensure the bot is properly installed in your team or chat."
           (some "Security check failed")])) ∧
    (∀ email, resolvedUserEmail env message = some email →
      env.findUserByEmail (jsToLower email) = none →
      validateUserAccess env message agentId agentName organizationId =
        (AuthResult.denied
          ("Unauthorized: " ++ email ++ " is not a registered Archestra user"),
         [Effect.sendReply
           ("⚠️ **Access Denied**\n\n" ++
            ("You (" ++ email ++
             ") are not a registered Archestra user. Contact your administrator for access."))
           (some "Security check failed")])) ∧
    (∀ email user, resolvedUserEmail env message = some email →
      env.findUserByEmail (jsToLower email) = some user →
      env.agentAdmin user.id organizationId = false →
      env.teamAccess user.id agentId = false →
      validateUserAccess env message agentId agentName organizationId =
        (AuthResult.denied
          "Unauthorized: user does not have access to this agent",
         [Effect.sendReply
           ("⚠️ **Access Denied**\n\n" ++
            ("You don't have access to the agent \"" ++ agentName ++
             "\". Contact your administrator for access."))
           (some "Security check failed")])) ∧
    (∀ email user, resolvedUserEmail env message = some email →
      env.findUserByEmail (jsToLower email) = some user →
      env.agentAdmin user.id organizationId = true →
      validateUserAccess env message agentId agentName organizationId =
        (AuthResult.ok user.id, [])) ∧
    (∀ selection, env.parseInteractive = some selection →
      strOpt (env.getUserEmail selection.userId) = none →
      handleSlackInteractive env db = some (db, []))
    := by
  refine ⟨?_, ?_, ?_, ?_, ?_⟩
  · intro h
    simp [validateUserAccess, securityErrorReply, h]
  · intro email h1 h2
    simp [validateUserAccess, securityErrorReply, h1, h2]
  · intro email user h1 h2 h3 h4
    simp [validateUserAccess, securityErrorReply, userHasAgentAccess,
      h1, h2, h3, h4]
  · intro email user h1 h2 h3
    simp [validateUserAccess, userHasAgentAccess, h1, h2, h3]
  · intro selection h1 h2
    simp [handleSlackInteractive, h1, h2]

/-- Witness for C5 (amended): a concrete identity-verification denial and a
concrete admin allow. -/
theorem claim5_witness :
    validateUserAccess { envBase with getUserEmail := fun _ => none }
        { msgBase with senderEmail := none } "a-peter" "Agent Peter" "org1" =
      (AuthResult.denied
        "Could not resolve user email for security validation",
       [Effect.sendReply
         "⚠️ **Access Denied**\n\nCould not verify your identity. Please ensure the bot is properly installed in your team or chat."
         (some "Security check failed")]) ∧
    validateUserAccess
        { envBase with
          agentAdmin := fun _ _ => true
          teamAccess := fun _ _ => false }
        msgBase "a-peter" "Agent Peter" "org1" =
      (AuthResult.ok "u1", []) :=
  ⟨(claim5_amended { envBase with getUserEmail := fun _ => none } dbEmpty
      { msgBase with senderEmail := none } "a-peter" "Agent Peter" "org1").1
      (by decide),
   (claim5_amended
      { envBase with
        agentAdmin := fun _ _ => true
        teamAccess := fun _ _ => false }
      dbEmpty msgBase "a-peter" "Agent Peter" "org1").2.2.2.1
      "alice@example.com" userAlice (by decide) (by decide) rfl⟩

/-- Counterexample to C7 as stated: on a binding with no assigned agent the
handler does not always (re-)issue the agent-selection prompt — when the
sender has no accessible agents it sends a "no agents available" notice and
no selection card (execution is still never triggered). -/
theorem claim7_counterexample :
    handleSlackMessage
        { envBase with parseMessage := some msgBase, internalAgents := [] }
        dbUnassigned =
      some (dbUnassigned,
        [Effect.spawnDiscover "W1",
         Effect.sendReply
           "No agents are available for you in Slack.\nContact your administrator to get access to an agent with Slack enabled."
           none]) ∧
    ([Effect.spawnDiscover "W1",
      Effect.sendReply
        "No agents are available for you in Slack.\nContact your administrator to get access to an agent with Slack enabled."
        none] : List Effect).all
      (fun e => !isSelectionCard e && !isAgentExecution e) = true := by
  refine ⟨by decide, by decide⟩

/-- Claim C7 as amended: a binding whose `agentId` is null never triggers
agent execution — `processMessage` on such a binding returns the
`NO_AGENT_ASSIGNED` failure (for a not-yet-processed message) without
invoking the executor — and the inbound handler re-issues the agent-selection
prompt whenever the sender has at least one accessible agent, creating the
unbound binding first when none exists. -/
theorem claim7_amended :
    (∀ (env : Env) (db : DB) (providerId : String)
       (message : IncomingChatMessage) (sendReply : Bool) (b : ChannelBinding),
      findByChannel db ⟨providerId, message.channelId, message.workspaceId⟩ =
        some b →
      strOpt b.agentId = none →
      (processMessage env db providerId message sendReply).snd.all
        (fun e => !isAgentExecution e) = true ∧
      (env.tryMark message.messageId = true →
        processMessage env db providerId message sendReply =
          ({ success := false, error := some "NO_AGENT_ASSIGNED" },
           [Effect.tryMark message.messageId]))) ∧
    (∀ (env : Env) (db : DB) (parsed : IncomingChatMessage)
       (email : String) (user : User) (b : ChannelBinding),
      env.parseMessage = some parsed →
      strOpt (env.getUserEmail parsed.senderId) = some email →
      env.findUserByEmail (jsToLower email) = some user →
      findByChannel db ⟨"slack", parsed.channelId, parsed.workspaceId⟩ =
        some b →
      strOpt b.agentId = none →
      getAccessibleChatopsAgents env (some email) ≠ [] →
      ∃ effects, handleSlackMessage env db = some (db, effects) ∧
        (∃ c ∈ effects, isSelectionCard c = true) ∧
        effects.all (fun e => !isAgentExecution e) = true) ∧
    (∀ (env : Env) (db : DB) (parsed : IncomingChatMessage)
       (email : String) (user : User) (organizationId : String),
      env.parseMessage = some parsed →
      strOpt (env.getUserEmail parsed.senderId) = some email →
      env.findUserByEmail (jsToLower email) = some user →
      findByChannel db ⟨"slack", parsed.channelId, parsed.workspaceId⟩ =
        none →
      env.firstOrgId = some organizationId →
      getAccessibleChatopsAgents env (some email) ≠ [] →
      ∃ db' effects nb, handleSlackMessage env db = some (db', effects) ∧
        findByChannel db' ⟨"slack", parsed.channelId, parsed.workspaceId⟩ =
          some nb ∧
        nb.agentId = none ∧
        (∃ c ∈ effects, isSelectionCard c = true) ∧
        effects.all (fun e => !isAgentExecution e) = true) := by
  refine ⟨?_, ?_, ?_⟩
  · intro env db providerId message sendReply b hfind hnull
    constructor
    · cases htry : env.tryMark message.messageId with
      | false => simp [processMessage, htry, isAgentExecution]
      | true => simp [processMessage, htry, hfind, hnull, isAgentExecution]
    · intro htry
      simp [processMessage, htry, hfind, hnull]
  · intro env db parsed email user b hparse hemail huser hfind hnull hagents
    have hne : (getAccessibleChatopsAgents env (some email)).isEmpty = false := by
      cases hl : getAccessibleChatopsAgents env (some email) with
      | nil => exact absurd hl hagents
      | cons a l => rfl
    cases hws : strOpt parsed.workspaceId with
    | none =>
      refine ⟨[Effect.sendSelectionCard
        ((getAccessibleChatopsAgents env (some email)).map (fun a => a.id))
        true], ?_,
        ⟨Effect.sendSelectionCard
          ((getAccessibleChatopsAgents env (some email)).map (fun a => a.id))
          true, by simp, rfl⟩, by simp [isAgentExecution]⟩
      simp [handleSlackMessage, sendSlackAgentSelectionCard, hparse, hemail,
        huser, hfind, hnull, hws, hne]
    | some w =>
      refine ⟨[Effect.spawnDiscover w, Effect.sendSelectionCard
        ((getAccessibleChatopsAgents env (some email)).map (fun a => a.id))
        true], ?_,
        ⟨Effect.sendSelectionCard
          ((getAccessibleChatopsAgents env (some email)).map (fun a => a.id))
          true, by simp, rfl⟩, by simp [isAgentExecution]⟩
      simp [handleSlackMessage, sendSlackAgentSelectionCard, hparse, hemail,
        huser, hfind, hnull, hws, hne]
  · intro env db parsed email user organizationId hparse hemail huser hfind
      horg hagents
    have hne : (getAccessibleChatopsAgents env (some email)).isEmpty = false := by
      cases hl : getAccessibleChatopsAgents env (some email) with
      | nil => exact absurd hl hagents
      | cons a l => rfl
    cases hws : strOpt parsed.workspaceId with
    | none =>
      refine ⟨upsertByChannel db
        ⟨organizationId, "slack", parsed.channelId, parsed.workspaceId,
         env.workspaceName,
         (if parsed.channelTypeIm then some ("Direct Message - " ++ email)
          else none),
         parsed.channelTypeIm,
         (if parsed.channelTypeIm then some email else none), none⟩,
        [Effect.upsertBinding parsed.channelId none,
         Effect.sendSelectionCard
           ((getAccessibleChatopsAgents env (some email)).map (fun a => a.id))
           true], _, ?_, findByChannel_upsert_new db _ hfind, rfl,
        ⟨Effect.sendSelectionCard
          ((getAccessibleChatopsAgents env (some email)).map (fun a => a.id))
          true, by simp, rfl⟩, by simp [isAgentExecution]⟩
      simp [handleSlackMessage, sendSlackAgentSelectionCard, hparse, hemail,
        huser, hfind, horg, hws, hne]
    | some w =>
      refine ⟨upsertByChannel db
        ⟨organizationId, "slack", parsed.channelId, parsed.workspaceId,
         env.workspaceName,
         (if parsed.channelTypeIm then some ("Direct Message - " ++ email)
          else none),
         parsed.channelTypeIm,
         (if parsed.channelTypeIm then some email else none), none⟩,
        [Effect.spawnDiscover w, Effect.upsertBinding parsed.channelId none,
         Effect.sendSelectionCard
           ((getAccessibleChatopsAgents env (some email)).map (fun a => a.id))
           true], _, ?_, findByChannel_upsert_new db _ hfind, rfl,
        ⟨Effect.sendSelectionCard
          ((getAccessibleChatopsAgents env (some email)).map (fun a => a.id))
          true, by simp, rfl⟩, by simp [isAgentExecution]⟩
      simp [handleSlackMessage, sendSlackAgentSelectionCard, hparse, hemail,
        huser, hfind, horg, hws, hne]

/-- Witness for C7 (amended): the concrete unassigned binding yields the
`NO_AGENT_ASSIGNED` failure and no execution. -/
theorem claim7_witness :
    processMessage envBase dbUnassigned "slack" msgBase true =
      ({ success := false, error := some "NO_AGENT_ASSIGNED" },
       [Effect.tryMark "m1"]) ∧
    (processMessage envBase dbUnassigned "slack" msgBase true).snd.all
      (fun e => !isAgentExecution e) = true :=
  ⟨(claim7_amended.1 envBase dbUnassigned "slack" msgBase true
      ⟨"org1", none, false, none, none⟩ (by decide) (by decide)).2 rfl,
   (claim7_amended.1 envBase dbUnassigned "slack" msgBase true
      ⟨"org1", none, false, none, none⟩ (by decide) (by decide)).1⟩

/-- Claim C8: while the TTL guard is set, `discoverChannels` does nothing (no
provider call); a provider failure is caught and leaves the guard unset; on
full success the call sequence is provider listing, channel upsert, stale
deletion over the union of workspace-id aliases, binding deduplication, and
only then the guard write; and the guard is written only when every one of
those steps succeeded on a non-empty channel list. -/
theorem claim8_discovery_guard (env : Env) (providerId workspaceId : String)
    (allWorkspaceIds : Option (List String)) :
    (env.cacheGet (channelDiscoveryCacheKey providerId workspaceId) = true →
      discoverChannels env providerId workspaceId allWorkspaceIds = []) ∧
    (env.cacheGet (channelDiscoveryCacheKey providerId workspaceId) = false →
      env.providerChannels = Except.error () →
      discoverChannels env providerId workspaceId allWorkspaceIds =
        [Effect.providerDiscover]) ∧
    (∀ channels organizationId,
      env.cacheGet (channelDiscoveryCacheKey providerId workspaceId) = false →
      env.providerChannels = Except.ok channels →
      channels.isEmpty = false →
      env.firstOrgId = some organizationId →
      env.ensureChannelsOk = true →
      env.deleteStaleOk = true →
      env.deduplicateOk = true →
      discoverChannels env providerId workspaceId allWorkspaceIds =
        [Effect.providerDiscover,
         Effect.ensureChannels organizationId
           (channels.map (fun c => c.channelId)),
         Effect.deleteStale
           (match allWorkspaceIds with
            | some l => if l.isEmpty then [workspaceId] else l
            | none => [workspaceId])
           (channels.map (fun c => c.channelId)),
         Effect.dedupBindings (channels.map (fun c => c.channelId)),
         Effect.cacheSet (channelDiscoveryCacheKey providerId workspaceId)]) ∧
    (Effect.cacheSet (channelDiscoveryCacheKey providerId workspaceId) ∈
        discoverChannels env providerId workspaceId allWorkspaceIds →
      env.cacheGet (channelDiscoveryCacheKey providerId workspaceId) = false ∧
      env.ensureChannelsOk = true ∧ env.deleteStaleOk = true ∧
      env.deduplicateOk = true ∧
      ∃ channels, env.providerChannels = Except.ok channels ∧
        channels.isEmpty = false ∧ env.firstOrgId.isSome = true) := by
  refine ⟨?_, ?_, ?_, ?_⟩
  · intro h
    simp [discoverChannels, h]
  · intro h1 h2
    simp [discoverChannels, h1, h2]
  · intro channels organizationId h1 h2 h3 h4 h5 h6 h7
    simp [discoverChannels, h1, h2, h3, h4, h5, h6, h7]
  · intro hmem
    by_cases h1 : env.cacheGet (channelDiscoveryCacheKey providerId workspaceId)
    · simp [discoverChannels, h1] at hmem
    · cases h2 : env.providerChannels with
      | error e =>
        cases e
        simp [discoverChannels, h1, h2] at hmem
      | ok channels =>
        by_cases h3 : channels.isEmpty
        · simp [discoverChannels, h1, h2, h3] at hmem
        · cases h4 : env.firstOrgId with
          | none => simp [discoverChannels, h1, h2, h3, h4] at hmem
          | some organizationId =>
            by_cases h5 : env.ensureChannelsOk
            · by_cases h6 : env.deleteStaleOk
              · by_cases h7 : env.deduplicateOk
                · exact ⟨eq_false_of_ne_true h1, h5, h6, h7, channels, rfl,
                    eq_false_of_ne_true h3, by simp⟩
                · simp [discoverChannels, h1, h2, h3, h4, h5, h6, h7] at hmem
              · simp [discoverChannels, h1, h2, h3, h4, h5, h6] at hmem
            · simp [discoverChannels, h1, h2, h3, h4, h5] at hmem

/-- Witness for C8: a set guard suppresses the provider call, and a concrete
successful discovery ends with the guard write after reconciliation. -/
theorem claim8_witness :
    discoverChannels { envBase with cacheGet := fun _ => true } "slack" "W1"
      none = [] ∧
    discoverChannels
        { envBase with
          providerChannels := Except.ok [⟨"CH9", some "general"⟩] }
        "slack" "W1" (some ["W1", "W1b"]) =
      [Effect.providerDiscover,
       Effect.ensureChannels "org1" ["CH9"],
       Effect.deleteStale ["W1", "W1b"] ["CH9"],
       Effect.dedupBindings ["CH9"],
       Effect.cacheSet (channelDiscoveryCacheKey "slack" "W1")] :=
  ⟨(claim8_discovery_guard { envBase with cacheGet := fun _ => true }
      "slack" "W1" none).1 rfl,
   (claim8_discovery_guard
      { envBase with
        providerChannels := Except.ok [⟨"CH9", some "general"⟩] }
      "slack" "W1" (some ["W1", "W1b"])).2.2.1 [⟨"CH9", some "general"⟩]
      "org1" rfl rfl rfl rfl rfl rfl rfl⟩

/-- Claim C9: the thread-context builder returns an empty context for every
message without a (truthy) thread identifier; a history-fetch failure also
degrades to an empty context; otherwise each entry renders as
`"<sender-or-Assistant>: <text>"` with the bot footer stripped exactly from
bot-authored entries and non-bot entries passed through unmodified; and
`stripBotFooter` removes the markdown, HTML and plain-text footer forms (both
the attribution and the fallback-notice bodies) while leaving footer-free
text alone. -/
theorem claim9_thread_context (env : Env) (message : IncomingChatMessage) :
    (strOpt message.threadId = none →
      fetchThreadHistory env message = ([], [])) ∧
    (∀ threadId, strOpt message.threadId = some threadId →
      env.threadHistory = Except.error () →
      fetchThreadHistory env message = ([], [Effect.getHistory threadId])) ∧
    (∀ threadId history, strOpt message.threadId = some threadId →
      env.threadHistory = Except.ok history →
      fetchThreadHistory env message =
        (history.map (fun m =>
          (if m.isFromBot then "Assistant" else m.senderName) ++ ": " ++
          (if m.isFromBot then stripBotFooter m.text else m.text)),
         [Effect.getHistory threadId])) ∧
    stripBotFooter "Hi!\n\n---\n_Via Bob_" = "Hi!" ∧
    stripBotFooter "Hi!<hr/><em>Via Bob</em>" = "Hi!" ∧
    stripBotFooter "Hi! Via Bob" = "Hi!" ∧
    stripBotFooter "Hi!\n\n---\n_\"X\" not found, using Bob_" = "Hi!" ∧
    stripBotFooter "no footer here" = "no footer here" := by
  refine ⟨?_, ?_, ?_, by decide, by decide, by decide, by decide, by decide⟩
  · intro h
    simp [fetchThreadHistory, h]
  · intro threadId h1 h2
    simp [fetchThreadHistory, h1, h2]
  · intro threadId history h1 h2
    simp [fetchThreadHistory, h1, h2]

/-- Witness for C9: a concrete thread history with one bot entry (footer
stripped) and one human entry (unmodified). -/
theorem claim9_witness :
    fetchThreadHistory
        { envBase with
          threadHistory := Except.ok
            [⟨"Hi there\n\n---\n_Via Default_", "Default", true⟩,
             ⟨"yo", "Bob", false⟩] }
        { msgBase with threadId := some "T1" } =
      (["Assistant: Hi there", "Bob: yo"], [Effect.getHistory "T1"]) := by
  have h := (claim9_thread_context
      { envBase with
        threadHistory := Except.ok
          [⟨"Hi there\n\n---\n_Via Default_", "Default", true⟩,
           ⟨"yo", "Bob", false⟩] }
      { msgBase with threadId := some "T1" }).2.2.1 "T1"
      [⟨"Hi there\n\n---\n_Via Default_", "Default", true⟩,
       ⟨"yo", "Bob", false⟩] (by decide) rfl
  rw [h]
  decide

/-- Counterexample to C10 as stated: on a channel with no binding the dedup
gate is indeed not consulted, but no agent-selection card is sent when the
sender has no accessible agents — a "no agents available" notice goes out
instead. -/
theorem claim10_counterexample :
    handleSlackMessage
        { envBase with parseMessage := some msgBase, internalAgents := [] }
        dbEmpty =
      some (⟨[(⟨"slack", "CH1", some "W1"⟩,
               ⟨"org1", none, false, none, none⟩)]⟩,
        [Effect.spawnDiscover "W1",
         Effect.upsertBinding "CH1" none,
         Effect.sendReply
           "No agents are available for you in Slack.\nContact your administrator to get access to an agent with Slack enabled."
           none]) ∧
    ([Effect.spawnDiscover "W1",
      Effect.upsertBinding "CH1" none,
      Effect.sendReply
        "No agents are available for you in Slack.\nContact your administrator to get access to an agent with Slack enabled."
        none] : List Effect).all
      (fun e => !isSelectionCard e && !isDedupConsult e) = true := by
  refine ⟨by decide, by decide⟩

/-- Claim C10 as amended: the inbound handler consults the dedup gate only on
the bound-agent path — on a channel whose binding is absent or has no
assigned agent the message identifier is never marked, and when the sender
has at least one accessible agent an agent-selection card is sent, so a
redelivered duplicate of such a message triggers a second selection-card
delivery. -/
theorem claim10_amended (env : Env) (db : DB) (parsed : IncomingChatMessage)
    (email : String) (user : User)
    (hparse : env.parseMessage = some parsed)
    (hemail : strOpt (env.getUserEmail parsed.senderId) = some email)
    (huser : env.findUserByEmail (jsToLower email) = some user)
    (hagents : getAccessibleChatopsAgents env (some email) ≠ []) :
    (∀ b, findByChannel db ⟨"slack", parsed.channelId, parsed.workspaceId⟩ =
        some b →
      strOpt b.agentId = none →
      ∃ effects, handleSlackMessage env db = some (db, effects) ∧
        effects.all (fun e => !isDedupConsult e) = true ∧
        (∃ c ∈ effects, isSelectionCard c = true)) ∧
    (∀ organizationId,
      findByChannel db ⟨"slack", parsed.channelId, parsed.workspaceId⟩ =
        none →
      env.firstOrgId = some organizationId →
      ∃ db' e1 e2, handleSlackMessage env db = some (db', e1) ∧
        handleSlackMessage env db' = some (db', e2) ∧
        e1.all (fun e => !isDedupConsult e) = true ∧
        e2.all (fun e => !isDedupConsult e) = true ∧
        (∃ c ∈ e1, isSelectionCard c = true) ∧
        (∃ c ∈ e2, isSelectionCard c = true)) := by
  have hne : (getAccessibleChatopsAgents env (some email)).isEmpty = false := by
    cases hl : getAccessibleChatopsAgents env (some email) with
    | nil => exact absurd hl hagents
    | cons a l => rfl
  constructor
  · intro b hfind hnull
    cases hws : strOpt parsed.workspaceId with
    | none =>
      refine ⟨[Effect.sendSelectionCard
        ((getAccessibleChatopsAgents env (some email)).map (fun a => a.id))
        true], ?_, by simp [isDedupConsult],
        ⟨Effect.sendSelectionCard
          ((getAccessibleChatopsAgents env (some email)).map (fun a => a.id))
          true, by simp, rfl⟩⟩
      simp [handleSlackMessage, sendSlackAgentSelectionCard, hparse, hemail,
        huser, hfind, hnull, hws, hne]
    | some w =>
      refine ⟨[Effect.spawnDiscover w, Effect.sendSelectionCard
        ((getAccessibleChatopsAgents env (some email)).map (fun a => a.id))
        true], ?_, by simp [isDedupConsult],
        ⟨Effect.sendSelectionCard
          ((getAccessibleChatopsAgents env (some email)).map (fun a => a.id))
          true, by simp, rfl⟩⟩
      simp [handleSlackMessage, sendSlackAgentSelectionCard, hparse, hemail,
        huser, hfind, hnull, hws, hne]
  · intro organizationId hfind horg
    have hfindUp : findByChannel
        (upsertByChannel db
          ⟨organizationId, "slack", parsed.channelId, parsed.workspaceId,
           env.workspaceName,
           (if parsed.channelTypeIm then some ("Direct Message - " ++ email)
            else none),
           parsed.channelTypeIm,
           (if parsed.channelTypeIm then some email else none), none⟩)
        ⟨"slack", parsed.channelId, parsed.workspaceId⟩ =
        some (⟨organizationId,
          (if parsed.channelTypeIm then some ("Direct Message - " ++ email)
           else none),
          parsed.channelTypeIm,
          (if parsed.channelTypeIm then some email else none),
          none⟩ : ChannelBinding) := by
      simpa [newBindingOfParams] using findByChannel_upsert_new db
        ⟨organizationId, "slack", parsed.channelId, parsed.workspaceId,
         env.workspaceName,
         (if parsed.channelTypeIm then some ("Direct Message - " ++ email)
          else none),
         parsed.channelTypeIm,
         (if parsed.channelTypeIm then some email else none), none⟩ hfind
    cases hws : strOpt parsed.workspaceId with
    | none =>
      refine ⟨upsertByChannel db
        ⟨organizationId, "slack", parsed.channelId, parsed.workspaceId,
         env.workspaceName,
         (if parsed.channelTypeIm then some ("Direct Message - " ++ email)
          else none),
         parsed.channelTypeIm,
         (if parsed.channelTypeIm then some email else none), none⟩,
        [Effect.upsertBinding parsed.channelId none,
         Effect.sendSelectionCard
           ((getAccessibleChatopsAgents env (some email)).map (fun a => a.id))
           true],
        [Effect.sendSelectionCard
          ((getAccessibleChatopsAgents env (some email)).map (fun a => a.id))
          true], ?_, ?_, by simp [isDedupConsult], by simp [isDedupConsult],
        ⟨Effect.sendSelectionCard
          ((getAccessibleChatopsAgents env (some email)).map (fun a => a.id))
          true, by simp, rfl⟩,
        ⟨Effect.sendSelectionCard
          ((getAccessibleChatopsAgents env (some email)).map (fun a => a.id))
          true, by simp, rfl⟩⟩
      · simp [handleSlackMessage, sendSlackAgentSelectionCard, hparse, hemail,
          huser, hfind, horg, hws, hne]
      · simp [handleSlackMessage, sendSlackAgentSelectionCard, hparse, hemail,
          huser, hfindUp, hws, hne,
          show strOpt (none : Option String) = none from rfl]
    | some w =>
      refine ⟨upsertByChannel db
        ⟨organizationId, "slack", parsed.channelId, parsed.workspaceId,
         env.workspaceName,
         (if parsed.channelTypeIm then some ("Direct Message - " ++ email)
          else none),
         parsed.channelTypeIm,
         (if parsed.channelTypeIm then some email else none), none⟩,
        [Effect.spawnDiscover w,
         Effect.upsertBinding parsed.channelId none,
         Effect.sendSelectionCard
           ((getAccessibleChatopsAgents env (some email)).map (fun a => a.id))
           true],
        [Effect.spawnDiscover w,
         Effect.sendSelectionCard
           ((getAccessibleChatopsAgents env (some email)).map (fun a => a.id))
           true], ?_, ?_, by simp [isDedupConsult], by simp [isDedupConsult],
        ⟨Effect.sendSelectionCard
          ((getAccessibleChatopsAgents env (some email)).map (fun a => a.id))
          true, by simp, rfl⟩,
        ⟨Effect.sendSelectionCard
          ((getAccessibleChatopsAgents env (some email)).map (fun a => a.id))
          true, by simp, rfl⟩⟩
      · simp [handleSlackMessage, sendSlackAgentSelectionCard, hparse, hemail,
          huser, hfind, horg, hws, hne]
      · simp [handleSlackMessage, sendSlackAgentSelectionCard, hparse, hemail,
          huser, hfindUp, hws, hne,
          show strOpt (none : Option String) = none from rfl]

/-- Witness for C10 (amended): two deliveries of the same message on an
initially unbound channel each produce a selection card and never touch the
dedup gate. -/
theorem claim10_witness :
    ∃ db' e1 e2,
      handleSlackMessage { envBase with parseMessage := some msgBase }
        dbEmpty = some (db', e1) ∧
      handleSlackMessage { envBase with parseMessage := some msgBase }
        db' = some (db', e2) ∧
      e1.all (fun e => !isDedupConsult e) = true ∧
      e2.all (fun e => !isDedupConsult e) = true ∧
      (∃ c ∈ e1, isSelectionCard c = true) ∧
      (∃ c ∈ e2, isSelectionCard c = true) :=
  (claim10_amended { envBase with parseMessage := some msgBase } dbEmpty
      msgBase "alice@example.com" userAlice rfl (by decide) (by decide)
      (by decide)).2 "org1" (by decide) rfl

end ChatOps
